import Mathlib

/-!
Shallow embedding of the `whoami`-style diagnostic HTTP service (`src/app.go`):
the payload generator `fillContent`, the `/data` handler's size computation,
the `/health` handler over its shared state, the websocket echo loop, and the
path router, together with theorems settling the specification claims.

Machine integers: Go `int64` arithmetic wraps on overflow; we model values as
unbounded `Int` with an explicit reduction into the signed 64-bit range at the
multiplication site.
-/

namespace Whoami

/-! ## Payload generator (`fillContent`, app.go:290-304)

Go bytes are modelled as `Nat` (values 0-255).  `charset` is the byte view of
the Go string literal `"-ABCDEFGHIJKLMNOPQRSTUVWXYZ"`; indexing a Go string
yields its bytes, which for this ASCII literal coincide with the code points. -/

def charset : List Nat := "-ABCDEFGHIJKLMNOPQRSTUVWXYZ".toList.map Char.toNat

/-- `fillContent(length)` for a non-negative length: `make([]byte, length)`
filled by `b[i] = charset[i % len(charset)]`, then for positive length the
first and last byte are overwritten with the sentinel `'|'`. -/
def fillContent (length : Nat) : List Nat :=
  let b := (List.range length).map (fun i => charset.getD (i % charset.length) 0)
  if 0 < length then (b.set 0 ('|'.toNat)).set (length - 1) ('|'.toNat) else b

/-! ## `/data` handler size computation (`dataHandler`, app.go:131-172) -/

def KB : Int := 2 ^ 10
def MB : Int := 2 ^ 20
def GB : Int := 2 ^ 30
def TB : Int := 2 ^ 40

/-- Reduce an unbounded integer into the signed 64-bit range, as Go `int64`
multiplication does on overflow. -/
def i64wrap (x : Int) : Int := (x + 2 ^ 63) % 2 ^ 64 - 2 ^ 63

/-- The `size` query parameter after `strconv.ParseInt`: `none` models a parse
error (missing/unparseable/out-of-range), which makes the handler default to 1;
a parsed negative value is clamped to 0.  The clamping happens BEFORE unit
multiplication. -/
def clampSize (parsed : Option Int) : Int :=
  match parsed with
  | none => 1
  | some s => if s < 0 then 0 else s

/-- `strings.ToLower` at the character level (the unit strings are ASCII). -/
def lowerChars (s : String) : List Char := s.toList.map Char.toLower

/-- Multiplier selected by `switch strings.ToLower(unit)`. -/
def unitMultiplier (unit : String) : Int :=
  match lowerChars unit with
  | ['k', 'b'] => KB
  | ['m', 'b'] => MB
  | ['g', 'b'] => GB
  | ['t', 'b'] => TB
  | _ => 1

/-- The length the handler passes to `fillContent`: clamped size times the
unit multiplier, with Go int64 wraparound on the multiplication. -/
def dataSize (parsed : Option Int) (unit : String) : Int :=
  i64wrap (clampSize parsed * unitMultiplier unit)

/-- The generated response body.  `make([]byte, n)` panics for negative `n`,
modelled as `none`; otherwise the body is `fillContent` of the computed size. -/
def dataBody (parsed : Option Int) (unit : String) : Option (List Nat) :=
  let n := dataSize parsed unit
  if n < 0 then none else some (fillContent n.toNat)

/-! ## Health state and handler (`healthHandler`, app.go:260-288)

The handler either writes the shared state (POST) or reads it (any other
method); we model it as an explicit state transformer.  The JSON decoding of
the request body (`json.NewDecoder(req.Body).Decode(&statusCode)`, library
code) is abstracted as its outcome: `.ok c` when the body decodes as the
integer `c`, `.error e` with the decoder's error text otherwise. -/

structure HealthState where
  StatusCode : Int
deriving DecidableEq, Repr

/-- Initial value of the package-level state: `healthState{http.StatusOK}`. -/
def currentHealthState : HealthState := ⟨200⟩

structure HttpResponse where
  status : Int
  body : String
deriving DecidableEq, Repr

/-- One call of `healthHandler`, returning the updated shared state together
with the response.  On POST with a decode error, `http.Error` responds 400
with the error text (it appends a trailing newline, elided here); on POST
success nothing is written, so `net/http` defaults to status 200 with empty
body; on any other method the handler takes the read branch and writes the
stored code as response status, empty body. -/
def healthHandler (method : String) (decoded : Except String Int)
    (st : HealthState) : HealthState × HttpResponse :=
  if method = "POST" then
    match decoded with
    | .error e => (st, ⟨400, e⟩)
    | .ok c => (⟨c⟩, ⟨200, ""⟩)
  else
    (st, ⟨st.StatusCode, ""⟩)

/-! ## Echo channel (`echoHandler`, app.go:102-121)

After a successful upgrade the handler loops: read a frame (type tag and
payload), return on read error, else write the same frame back, return on
write error.  Reads are modelled as a list of `Option Frame` (`none` = read
error / peer close); write outcomes as a predicate on the write index
(`true` = the write succeeds). -/

inductive MsgType
  | text
  | binary
deriving DecidableEq, Repr

structure Frame where
  messageType : MsgType
  payload : List Nat
deriving DecidableEq, Repr

/-- The frames the connection delivers before its first read error. -/
def framesUntilReadError : List (Option Frame) → List Frame
  | [] => []
  | none :: _ => []
  | some f :: rest => f :: framesUntilReadError rest

def echoLoopAux : List (Option Frame) → (Nat → Bool) → Nat → List Frame
  | [], _, _ => []
  | none :: _, _, _ => []
  | some f :: rest, writeOk, k =>
    if writeOk k then f :: echoLoopAux rest writeOk (k + 1) else []

/-- The sequence of frames the echo loop writes back, in order: each received
frame is echoed unchanged until the first read error or failed write. -/
def echoLoop (reads : List (Option Frame)) (writeOk : Nat → Bool) : List Frame :=
  echoLoopAux reads writeOk 0

/-! ## Router (`main`, app.go:55-60)

`http.HandleFunc` registers the six patterns on the default `ServeMux`.  None
of the non-root patterns ends in a slash, so each matches exactly its own
path, while the pattern `"/"` matches every other path: every unmatched path
falls through to `whoamiHandler`. -/

inductive Handler
  | dataH
  | echoH
  | benchH
  | whoamiH
  | apiH
  | healthH
deriving DecidableEq, Repr

/-- `ServeMux` dispatch for the registered patterns. -/
def route (path : String) : Handler :=
  if path = "/data" then .dataH
  else if path = "/echo" then .echoH
  else if path = "/bench" then .benchH
  else if path = "/api" then .apiH
  else if path = "/health" then .healthH
  else .whoamiH

/-! ## Helper lemmas -/

theorem charset_length : charset.length = 27 := by decide

theorem fillContent_length (n : Nat) : (fillContent n).length = n := by
  unfold fillContent
  by_cases h : 0 < n <;> simp [h]

theorem fillContent_first (n : Nat) (h : 0 < n) :
    (fillContent n)[0]? = some ('|'.toNat) := by
  unfold fillContent
  simp only [if_pos h, List.getElem?_set, List.length_set, List.length_map,
    List.length_range]
  by_cases h1 : n - 1 = 0 <;> simp [h1, h]

theorem fillContent_last (n : Nat) (h : 0 < n) :
    (fillContent n)[n - 1]? = some ('|'.toNat) := by
  unfold fillContent
  simp only [if_pos h, List.getElem?_set, List.length_set, List.length_map,
    List.length_range]
  simp [Nat.sub_lt h]

theorem fillContent_interior (n i : Nat) (h0 : 0 < i) (h1 : i + 1 < n) :
    (fillContent n)[i]? = some (charset.getD (i % 27) 0) := by
  unfold fillContent
  have hn : 0 < n := by omega
  have hne1 : ¬ (n - 1 = i) := by omega
  have hne0 : ¬ (0 = i) := by omega
  simp only [if_pos hn, List.getElem?_set, if_neg hne1, if_neg hne0]
  rw [List.getElem?_map, List.getElem?_range (by omega)]
  simp [charset_length]

theorem clampSize_nonneg (p : Option Int) : 0 ≤ clampSize p := by
  unfold clampSize
  cases p with
  | none => decide
  | some s => split <;> omega

theorem unitMultiplier_pos (u : String) : 0 < unitMultiplier u := by
  unfold unitMultiplier
  split <;> decide

/-- When the clamped size times the multiplier stays below `2 ^ 63`, the int64
multiplication does not overflow and `dataSize` is the exact product. -/
theorem dataSize_of_no_overflow (p : Option Int) (u : String)
    (h : clampSize p * unitMultiplier u < 2 ^ 63) :
    dataSize p u = clampSize p * unitMultiplier u := by
  have hc := clampSize_nonneg p
  have hm := unitMultiplier_pos u
  have hp : 0 ≤ clampSize p * unitMultiplier u := mul_nonneg hc (le_of_lt hm)
  unfold dataSize i64wrap
  omega

theorem echoLoopAux_take (reads : List (Option Frame)) (writeOk : Nat → Bool)
    (k : Nat) :
    ∃ m, echoLoopAux reads writeOk k = (framesUntilReadError reads).take m := by
  induction reads generalizing k with
  | nil => exact ⟨0, rfl⟩
  | cons hd tl ih =>
    cases hd with
    | none => exact ⟨0, rfl⟩
    | some f =>
      by_cases hw : writeOk k
      · obtain ⟨m, hm⟩ := ih (k + 1)
        exact ⟨m + 1, by simp [echoLoopAux, hw, framesUntilReadError, hm]⟩
      · exact ⟨0, by simp [echoLoopAux, hw]⟩

theorem echoLoopAux_all_ok (reads : List (Option Frame)) (writeOk : Nat → Bool)
    (k : Nat) (h : ∀ j, writeOk j = true) :
    echoLoopAux reads writeOk k = framesUntilReadError reads := by
  induction reads generalizing k with
  | nil => rfl
  | cons hd tl ih =>
    cases hd with
    | none => rfl
    | some f => simp [echoLoopAux, h k, framesUntilReadError, ih]

/-! ## Claim theorems -/

/-- C1: for every non-negative `n`, `fillContent n` has length exactly `n`;
for `n > 0` its first and last bytes are the sentinel `'|'` and every interior
byte at position `i` equals `charset[i % 27]`, where `charset` is the fixed
27-symbol set: a dash followed by the 26 uppercase letters. -/
theorem C1_fillContent_shape (n : Nat) :
    charset.length = 27 ∧ charset[0]? = some ('-'.toNat) ∧
    (∀ j, j < 26 → charset[j + 1]? = some ('A'.toNat + j)) ∧
    (fillContent n).length = n ∧
    (0 < n →
      (fillContent n)[0]? = some ('|'.toNat) ∧
      (fillContent n)[n - 1]? = some ('|'.toNat) ∧
      ∀ i, 0 < i → i + 1 < n → (fillContent n)[i]? = some (charset.getD (i % 27) 0)) :=
  ⟨by decide, by decide, by decide, fillContent_length n, fun h =>
    ⟨fillContent_first n h, fillContent_last n h,
      fun i h0 h1 => fillContent_interior n i h0 h1⟩⟩

/-- C1 witness: the shape of `fillContent 5` (`'|' = 124`, `'B' = 66`). -/
theorem C1_fillContent_shape_witness :
    (fillContent 5).length = 5 ∧ (fillContent 5)[0]? = some 124 ∧
    (fillContent 5)[4]? = some 124 ∧ (fillContent 5)[2]? = some 66 := by
  have h := C1_fillContent_shape 5
  refine ⟨h.2.2.2.1, (h.2.2.2.2 (by decide)).1, (h.2.2.2.2 (by decide)).2.1, ?_⟩
  have h2 := (h.2.2.2.2 (by decide)).2.2 2 (by decide) (by decide)
  rw [h2]
  decide

/-- C2 counterexample: a parseable size of `8388608 = 2 ^ 23` with unit `tb`
makes the clamped size times `2 ^ 40` overflow int64 (clamping happens before
the multiplication), so the length handed to the generator is negative. -/
theorem C2_counterexample : dataSize (some 8388608) "tb" < 0 := by decide

/-- C2 (amended): the length passed to the generator is non-negative whenever
the clamped size times the unit multiplier does not overflow int64, i.e. stays
below `2 ^ 63`; without that bound the claim fails. -/
theorem C2_size_nonneg_no_overflow (p : Option Int) (u : String)
    (h : clampSize p * unitMultiplier u < 2 ^ 63) : 0 ≤ dataSize p u := by
  rw [dataSize_of_no_overflow p u h]
  exact mul_nonneg (clampSize_nonneg p) (le_of_lt (unitMultiplier_pos u))

/-- C2 witness: `size=5&unit=tb` stays in range and yields a non-negative
length. -/
theorem C2_size_nonneg_witness :
    clampSize (some 5) * unitMultiplier "tb" < 2 ^ 63 ∧
    0 ≤ dataSize (some 5) "tb" :=
  ⟨by decide, C2_size_nonneg_no_overflow (some 5) "tb" (by decide)⟩

/-- C3: a POST whose body fails to decode as a JSON integer yields HTTP 400
with the decode error text as body and leaves the stored status unchanged: a
subsequent GET still reports the old status code. -/
theorem C3_health_post_error (st : HealthState) (e : String)
    (d : Except String Int) :
    healthHandler "POST" (.error e) st = (st, ⟨400, e⟩) ∧
    (healthHandler "GET" d (healthHandler "POST" (.error e) st).1).2.status
      = st.StatusCode :=
  ⟨rfl, rfl⟩

/-- C4: a POST with JSON integer `c` replaces the stored status with `c` (no
range validation) and answers 200 with empty body; a subsequent GET responds
with status `c` and empty body.  The initial state is 200, and the concrete
POST 503 / GET 503 scenario holds. -/
theorem C4_health_post_sets_status (c : Int) (st : HealthState)
    (d : Except String Int) :
    (healthHandler "POST" (.ok c) st).1 = ⟨c⟩ ∧
    (healthHandler "POST" (.ok c) st).2 = ⟨200, ""⟩ ∧
    healthHandler "GET" d (healthHandler "POST" (.ok c) st).1 = (⟨c⟩, ⟨c, ""⟩) ∧
    currentHealthState.StatusCode = 200 ∧
    healthHandler "GET" d (healthHandler "POST" (.ok 503) currentHealthState).1
      = (⟨503⟩, ⟨503, ""⟩) :=
  ⟨rfl, rfl, rfl, rfl, rfl⟩

/-- C5 counterexample: for `size=16777216&unit=tb` the true product is
`2 ^ 24 * 2 ^ 40 = 2 ^ 64`, which wraps to 0 in int64, so the response body is
empty instead of holding `size * multiplier` bytes. -/
theorem C5_counterexample :
    dataBody (some 16777216) "tb" = some [] ∧
    clampSize (some 16777216) * unitMultiplier "tb" = 2 ^ 64 := by
  constructor
  · have h : dataSize (some 16777216) "tb" = 0 := by decide
    unfold dataBody
    rw [h]
    rfl
  · decide

/-- C5 (amended): whenever the clamped size times the unit multiplier does not
overflow int64, the body has exactly that many generated bytes; in particular
`size=10&unit=kb` yields `fillContent 10240`, whose 10240 bytes start and end
with `'|'`, and `size=-5` yields an empty body. -/
theorem C5_data_body (p : Option Int) (u : String)
    (h : clampSize p * unitMultiplier u < 2 ^ 63) :
    (∃ b, dataBody p u = some b ∧
      (b.length : Int) = clampSize p * unitMultiplier u) ∧
    dataBody (some 10) "kb" = some (fillContent 10240) ∧
    (fillContent 10240).length = 10240 ∧
    (fillContent 10240)[0]? = some ('|'.toNat) ∧
    (fillContent 10240)[10239]? = some ('|'.toNat) ∧
    dataBody (some (-5)) "" = some [] := by
  refine ⟨?_, ?_, fillContent_length 10240, fillContent_first 10240 (by omega),
    ?_, ?_⟩
  · have hs := dataSize_of_no_overflow p u h
    have hge : 0 ≤ dataSize p u := by
      rw [hs]
      exact mul_nonneg (clampSize_nonneg p) (le_of_lt (unitMultiplier_pos u))
    refine ⟨fillContent (dataSize p u).toNat, ?_, ?_⟩
    · unfold dataBody
      rw [if_neg (by omega)]
    · rw [fillContent_length, Int.toNat_of_nonneg hge, hs]
  · have hs : dataSize (some 10) "kb" = 10240 := by decide
    unfold dataBody
    rw [hs]
    rfl
  · have hl := fillContent_last 10240 (by omega)
    simpa using hl
  · have hs : dataSize (some (-5)) "" = 0 := by decide
    unfold dataBody
    rw [hs]
    rfl

/-- C5 witness: the `size=10&unit=kb` scenario via the amended theorem. -/
theorem C5_data_body_witness :
    dataBody (some 10) "kb" = some (fillContent 10240) :=
  (C5_data_body (some 10) "kb" (by decide)).2.1

/-- C6: the echo loop writes back an initial segment of the received frames,
byte-identical and with the same type tag, strictly in arrival order, stopping
at the first read error or failed write; when no write fails it echoes exactly
every frame received before the first read error. -/
theorem C6_echo_order (reads : List (Option Frame)) (writeOk : Nat → Bool) :
    (∃ m, echoLoop reads writeOk = (framesUntilReadError reads).take m) ∧
    ((∀ j, writeOk j = true) →
      echoLoop reads writeOk = framesUntilReadError reads) :=
  ⟨echoLoopAux_take reads writeOk 0, fun h => echoLoopAux_all_ok reads writeOk 0 h⟩

/-- C6 witness: a text and a binary frame are echoed unchanged, in order. -/
theorem C6_echo_order_witness :
    echoLoop [some ⟨.text, [1, 2]⟩, some ⟨.binary, [255]⟩] (fun _ => true)
      = [⟨.text, [1, 2]⟩, ⟨.binary, [255]⟩] :=
  (C6_echo_order [some ⟨.text, [1, 2]⟩, some ⟨.binary, [255]⟩] (fun _ => true)).2
    (fun _ => rfl)

/-- C7: the generated payload is a pure function of the requested length
alone — equal lengths yield byte-identical content. -/
theorem C7_generate_deterministic (n m : Nat) (h : n = m) :
    fillContent n = fillContent m := by rw [h]

/-- C7 witness: two invocations at length 7 agree. -/
theorem C7_generate_deterministic_witness : fillContent 7 = fillContent 7 :=
  C7_generate_deterministic 7 7 rfl

/-- C8: every path distinct from the five non-root registered patterns is
dispatched to the whoami handler — there is no 404 fallback. -/
theorem C8_route_fallthrough (path : String)
    (h1 : path ≠ "/data") (h2 : path ≠ "/echo") (h3 : path ≠ "/bench")
    (h4 : path ≠ "/api") (h5 : path ≠ "/health") :
    route path = .whoamiH := by
  simp [route, h1, h2, h3, h4, h5]

/-- C8 witness: an unregistered path routes to whoami. -/
theorem C8_route_fallthrough_witness : route "/foobar" = .whoamiH :=
  C8_route_fallthrough "/foobar" (by decide) (by decide) (by decide) (by decide)
    (by decide)

/-- C10: any method other than POST takes the read branch: the response status
is the stored status code, the body is empty, and the state is unchanged. -/
theorem C10_health_read_path (method : String) (h : method ≠ "POST")
    (d : Except String Int) (st : HealthState) :
    healthHandler method d st = (st, ⟨st.StatusCode, ""⟩) := by
  simp [healthHandler, h]

/-- C10 witness: a PUT against state 42 responds 42 and leaves the state. -/
theorem C10_health_read_path_witness :
    healthHandler "PUT" (.ok 0) ⟨42⟩ = (⟨42⟩, ⟨42, ""⟩) :=
  C10_health_read_path "PUT" (by decide) (.ok 0) ⟨42⟩

end Whoami
